import Mathlib

/-!
Verification of the APyMongo `Cursor` class (apymongo/cursor.py) against its
natural-language specification.  The Python class is shallowly embedded: the
cursor object becomes an explicit `State` record, each method becomes a pure
function on `State`, exceptions become `Option PyErr` / `Except PyErr`
results, and the asynchronous drive loop (`loop` / `_refresh` /
`__send_message`) becomes a recursive function consuming a list of server
responses.  Python dynamic values that matter for `isinstance` checks and
truthiness are modelled by the small inductive `PyVal`.
-/

/-- A small model of the Python values the cursor code inspects with
`isinstance` checks and truthiness tests.  `pcode` stands for a
`bson.code.Code` object wrapping a JavaScript source string. -/
inductive PyVal where
  | pnone
  | pbool (b : Bool)
  | pint (n : Int)
  | pstr (s : String)
  | pcode (s : String)
  | plist (xs : List PyVal)
  | pdict (entries : List (String × PyVal))

/-- Python truthiness of a modelled value. -/
def truthy : PyVal → Bool
  | .pnone => false
  | .pbool b => b
  | .pint n => !(n == 0)
  | .pstr s => !(s == "")
  | .pcode _ => true
  | .plist xs => !xs.isEmpty
  | .pdict d => !d.isEmpty

/-- `isinstance(v, int)`: in Python, `bool` is a subclass of `int`. -/
def PyVal.isInt : PyVal → Bool
  | .pint _ => true
  | .pbool _ => true
  | _ => false

/-- `isinstance(v, bool)`. -/
def PyVal.isBool : PyVal → Bool
  | .pbool _ => true
  | _ => false

/-- `isinstance(v, dict)`. -/
def PyVal.isDict : PyVal → Bool
  | .pdict _ => true
  | _ => false

/-- The integer carried by a value known to pass `isinstance(v, int)`;
`True`/`False` count as `1`/`0` exactly as in Python. -/
def PyVal.toInt : PyVal → Int
  | .pint n => n
  | .pbool b => if b then 1 else 0
  | _ => 0

/-- The boolean carried by a value known to pass `isinstance(v, bool)`. -/
def PyVal.toBool : PyVal → Bool
  | .pbool b => b
  | _ => false

/-- The entry list of a value known to pass `isinstance(v, dict)`. -/
def PyVal.asDict : PyVal → List (String × PyVal)
  | .pdict d => d
  | _ => []

/-- The exceptions the cursor code can raise or store. -/
inductive PyErr where
  | typeError
  | valueError
  | invalidOperation
  | autoReconnect
  | assertionError
deriving DecidableEq

/-- The slice of the external collection/connection objects the cursor reads:
`collection.full_name` and `collection.database.connection.slave_okay`. -/
structure Coll where
  fullName : String
  slaveOkay : Bool
deriving DecidableEq

/-- The cursor state: one field per private attribute assigned in
`Cursor.__init__` (lines 75-136 of cursor.py), plus two observation fields
recording externally visible effects: `killSends` counts
`connection.close_cursor` dispatches and `disconnected` records that
`connection.disconnect()` ran.  The `callback` continuation itself is not
modelled as a function; deliveries to it are reported by the drive loop as
explicit outcomes. -/
structure State where
  coll : Coll
  callback : PyVal
  processor : PyVal
  spec : List (String × PyVal)
  fields : Option (List (String × PyVal))
  skip : Int
  limit : Int
  batchSize : Int
  store : Bool
  empty : Bool
  timeout : Bool
  tailable : Bool
  snapshot : Bool
  ordering : Option (List (String × Int))
  maxScan : Option Int
  explain : Bool
  hint : Option (List (String × Int))
  mustUseMaster : Bool
  isCommand : Bool
  data : List PyVal
  datastore : List PyVal
  connectionId : Option Nat
  retrieved : Int
  killed : Bool
  id : Option Int
  error : Option PyErr
  killSends : Nat
  disconnected : Bool

/-- Modelled from the spec: `helpers._index_list` / `helpers._index_document`
(a module external to this repository) normalize a single key plus direction,
or an ordered list of (key, direction) pairs, into an ordered
field-to-direction document. -/
def indexList (keyOrList direction : PyVal) : List (String × Int) :=
  match direction with
  | .pint d =>
    match keyOrList with
    | .pstr k => [(k, d)]
    | _ => []
  | _ =>
    match keyOrList with
    | .pstr k => [(k, 1)]
    | .plist xs =>
      xs.filterMap (fun x =>
        match x with
        | .plist [.pstr k, .pint d] => some (k, d)
        | .pstr k => some (k, 1)
        | _ => none)
    | _ => []

/-- Modelled from the spec: `helpers._index_document` applied to a sort
specifier given without a separate direction. -/
def indexDocument (v : PyVal) : List (String × Int) :=
  indexList v .pnone

/-- Modelled from the spec: `helpers._fields_list_to_dict` (external module)
turns a list of field names into a projection mapping; the surrounding
normalization (lines 95-99) replaces a falsy specifier by the projection
onto the id field. -/
def normalizeFields : PyVal → Option (List (String × PyVal))
  | .pnone => none
  | f =>
    if !truthy f then some [("_id", .pint 1)]
    else
      match f with
      | .pdict d => some d
      | .plist xs =>
        some (xs.filterMap (fun x =>
          match x with
          | .pstr k => some (k, .pint 1)
          | _ => none))
      | _ => some []

/-- `Cursor.__init__` (lines 51-136): the positional parameter order after
`collection` is `callback, processor, spec, fields, skip, limit, timeout,
snapshot, tailable`, followed by `sort`, `max_scan` and the keyword flags.
Validation happens in source order; on success every private attribute
receives its initial value. -/
def cursorInit (coll : Coll) (callback processor spec fields skip limit
    timeout snapshot tailable sort maxScan : PyVal)
    (store mustUseMaster isCommand : Bool) : Except PyErr State :=
  let spec : PyVal := match spec with
    | .pnone => .pdict []
    | v => v
  if !spec.isDict then .error .typeError
  else if !skip.isInt then .error .typeError
  else if !limit.isInt then .error .typeError
  else if !timeout.isBool then .error .typeError
  else if !snapshot.isBool then .error .typeError
  else if !tailable.isBool then .error .typeError
  else
    .ok { coll := coll
          callback := callback
          processor := processor
          spec := spec.asDict
          fields := normalizeFields fields
          skip := skip.toInt
          limit := limit.toInt
          batchSize := 0
          store := store
          empty := false
          timeout := timeout.toBool
          tailable := tailable.toBool
          snapshot := snapshot.toBool
          ordering := if truthy sort then some (indexDocument sort) else none
          maxScan := match maxScan with
            | .pint n => some n
            | _ => none
          explain := false
          hint := none
          mustUseMaster := mustUseMaster
          isCommand := isCommand
          data := []
          datastore := []
          connectionId := none
          retrieved := 0
          killed := false
          id := none
          error := none
          killSends := 0
          disconnected := false }

/-- The optional projection rendered back into a Python value, as it is
handed from `clone` into the constructor call. -/
def optFieldsPy : Option (List (String × PyVal)) → PyVal
  | none => .pnone
  | some d => .pdict d

/-- `Cursor.clone` (lines 168-183).  The source calls
`Cursor(self.__collection, self.__spec, self.__fields, self.__skip,
self.__limit, self.__timeout, self.__tailable, self.__snapshot)`
positionally, so each value binds to the constructor parameter two places
earlier than intended (`callback` and `processor` precede `spec`); the
remaining parameters take their defaults.  On success the source then
reapplies ordering, explain, hint and batch size onto the copy. -/
def clone (s : State) : Except PyErr State :=
  match cursorInit s.coll (.pdict s.spec) (optFieldsPy s.fields)
      (.pint s.skip) (.pint s.limit) (.pbool s.timeout) (.pbool s.tailable)
      (.pbool s.snapshot) (.pbool false) (.pbool false) .pnone .pnone
      true false false with
  | .error e => .error e
  | .ok c =>
    .ok { c with ordering := s.ordering, explain := s.explain,
                 hint := s.hint, batchSize := s.batchSize }

/-- `Cursor.rewind` (lines 151-166): resets the buffered batch, the server
cursor id, the connection affinity, the retrieved count and the killed flag,
and nothing else. -/
def rewind (s : State) : State :=
  { s with data := [], id := none, connectionId := none,
           retrieved := 0, killed := false }

/-- Truthiness of `self.__id`: `None` and `0` are falsy. -/
def truthyId : Option Int → Bool
  | none => false
  | some i => !(i == 0)

/-- `Cursor.__die` (lines 185-194): dispatches `connection.close_cursor`
only when the id is truthy and the cursor is not yet killed, then sets the
killed flag unconditionally.  The dispatch is recorded in `killSends`. -/
def die (s : State) : State :=
  if truthyId s.id && !s.killed then
    { s with killed := true, killSends := s.killSends + 1 }
  else
    { s with killed := true }

/-- `Cursor.__del__` (lines 147-149): the finalizer calls `__die` only when
the id is truthy and the cursor is not killed. -/
def delFinalizer (s : State) : State :=
  if truthyId s.id && !s.killed then die s else s

/-- `Cursor.__check_okay_to_chain` (lines 226-230): raises when
`self.__retrieved` is truthy or `self.__id` is not `None`. -/
def chainBlocked (s : State) : Bool :=
  !(s.retrieved == 0) || s.id.isSome

namespace Cursor

/-- `Cursor.limit` (lines 232-251): type check, chain guard, then stores the
limit and clears the empty flag.  An exception leaves the state unchanged. -/
def limit (s : State) (l : PyVal) : State × Option PyErr :=
  if !l.isInt then (s, some .typeError)
  else if chainBlocked s then (s, some .invalidOperation)
  else ({ s with empty := false, limit := l.toInt }, none)

/-- `Cursor.batch_size` (lines 253-275): type check, range check, chain
guard, then stores `batch_size == 1 and 2 or batch_size`, i.e. `2` when the
argument equals `1` and the argument itself otherwise. -/
def batchSize (s : State) (b : PyVal) : State × Option PyErr :=
  if !b.isInt then (s, some .typeError)
  else if b.toInt < 0 then (s, some .valueError)
  else if chainBlocked s then (s, some .invalidOperation)
  else ({ s with batchSize := if b.toInt == 1 then 2 else b.toInt }, none)

/-- `Cursor.skip` (lines 277-292): type check, chain guard, then stores the
skip count. -/
def skip (s : State) (k : PyVal) : State × Option PyErr :=
  if !k.isInt then (s, some .typeError)
  else if chainBlocked s then (s, some .invalidOperation)
  else ({ s with skip := k.toInt }, none)

/-- `Cursor.max_scan` (lines 294-310): chain guard, then stores the raw
argument (no validation). -/
def maxScan (s : State) (m : PyVal) : State × Option PyErr :=
  if chainBlocked s then (s, some .invalidOperation)
  else ({ s with maxScan := match m with | .pint n => some n | _ => none },
        none)

/-- `Cursor.sort` (lines 312-333): chain guard, then stores the normalized
ordering document built by the external helpers. -/
def sort (s : State) (keyOrList direction : PyVal) : State × Option PyErr :=
  if chainBlocked s then (s, some .invalidOperation)
  else ({ s with ordering := some (indexList keyOrList direction) }, none)

/-- `Cursor.hint` (lines 355-382): chain guard; `None` clears the hint, any
other index specifier is normalized and stored. -/
def hint (s : State) (index : PyVal) : State × Option PyErr :=
  if chainBlocked s then (s, some .invalidOperation)
  else
    match index with
    | .pnone => ({ s with hint := none }, none)
    | ix => ({ s with hint := some (indexDocument ix) }, none)

/-- Coercion `Code(code)` from `bson.code` (external): wraps a string as a
code value and leaves a code value unchanged. -/
def asCode : PyVal → PyVal
  | .pcode c => .pcode c
  | .pstr c => .pcode c
  | _ => .pcode ""

/-- Python dict assignment `d[k] = v`: replaces the value under an existing
key in place, otherwise appends the binding. -/
def setKey (d : List (String × PyVal)) (k : String) (v : PyVal) :
    List (String × PyVal) :=
  if d.any (fun p => p.1 == k) then
    d.map (fun p => if p.1 == k then (k, v) else p)
  else d ++ [(k, v)]

/-- `Cursor.where` (lines 384-409): chain guard, coerces the argument to a
code value, then merges it into the filter under the reserved key.  (`where`
is a Lean keyword, hence the name.) -/
def whereMethod (s : State) (code : PyVal) : State × Option PyErr :=
  if chainBlocked s then (s, some .invalidOperation)
  else ({ s with spec := setKey s.spec "$where" (asCode code) }, none)

end Cursor

/-- An ordering or hint document rendered as a Python dict value. -/
def ordDict (o : List (String × Int)) : List (String × PyVal) :=
  o.map (fun p => (p.1, .pint p.2))

/-- `Cursor.__query_spec` (lines 196-212): wraps the filter under the query
modifier key unless the cursor is a command or already wrapped, then attaches
each reserved modifier only if its field is truthy, in source order. -/
def querySpec (s : State) : List (String × PyVal) :=
  let spec :=
    if !s.isCommand && !(s.spec.any (fun p => p.1 == "$query")) then
      [("$query", .pdict s.spec)]
    else s.spec
  let spec := match s.ordering with
    | some o => if o.isEmpty then spec
                else Cursor.setKey spec "$orderby" (.pdict (ordDict o))
    | none => spec
  let spec := if s.explain then Cursor.setKey spec "$explain" (.pbool true)
              else spec
  let spec := match s.hint with
    | some h => if h.isEmpty then spec
                else Cursor.setKey spec "$hint" (.pdict (ordDict h))
    | none => spec
  let spec := if s.snapshot then Cursor.setKey spec "$snapshot" (.pbool true)
              else spec
  let spec := match s.maxScan with
    | some m => if m == 0 then spec
                else Cursor.setKey spec "$maxScan" (.pint m)
    | none => spec
  spec

/-- `Cursor.__query_options` (lines 214-224): the option bitmask from the
tailable flag, the connection-level slave-okay preference and the negated
timeout flag. -/
def queryOptions (s : State) : Nat :=
  let o := 0
  let o := if s.tailable then o ||| 2 else o
  let o := if s.coll.slaveOkay then o ||| 4 else o
  let o := if !s.timeout then o ||| 16 else o
  o

/-- The wire messages built by the external `message` module:
`message.query` and `message.get_more` as invoked from `Cursor._refresh`. -/
inductive Msg where
  | query (options : Nat) (fullName : String) (numberToSkip : Int)
      (numberToReturn : Int) (spec : List (String × PyVal))
      (fields : Option (List (String × PyVal)))
  | getMore (fullName : String) (numberToReturn : Int) (cursorId : Int)

/-- The batch count of the get-more issued by `Cursor._refresh`
(lines 562-568): `limit - retrieved`, further bounded by the batch size when
both are nonzero, and the bare batch size when the limit is zero. -/
def getMoreCount (s : State) : Int :=
  if s.limit ≠ 0 then
    if s.batchSize ≠ 0 then min (s.limit - s.retrieved) s.batchSize
    else s.limit - s.retrieved
  else s.batchSize

/-- The message `Cursor._refresh` (lines 547-572) dispatches: an initial
query when the id is unset, a get-more when the id is live, and nothing at
all when the id is `0` (neither branch of the if/elif applies). -/
def request (s : State) : Option Msg :=
  match s.id with
  | none => some (.query (queryOptions s) s.coll.fullName s.skip s.limit
      (querySpec s) s.fields)
  | some i =>
    if i == 0 then none
    else some (.getMore s.coll.fullName (getMoreCount s) i)

/-- A decoded reply as produced by `helpers._unpack_response`. -/
structure Reply where
  cursorId : Int
  startingFrom : Int
  numberReturned : Int
  data : List PyVal

/-- What the transport hands to the response callback: either an exception
object delivered as the response value, or a payload (optionally a
`(connection_id, response)` pair) whose decoding either succeeds or raises a
reconnect-classified error. -/
inductive Payload where
  | bad
  | reply (r : Reply)

inductive RawResponse where
  | exc (e : PyErr)
  | data (cid : Option Nat) (p : Payload)

/-- How control leaves the response callback: either the registered
continuation is invoked, or an exception escapes across the asynchronous
boundary. -/
inductive Outcome where
  | continued
  | raised (e : PyErr)

/-- `mod_callback` inside `Cursor.__send_message` (lines 581-617).
An exception response is stored as the terminal error and the continuation
still runs.  Otherwise the connection affinity is recorded; a decode failure
triggers `connection.disconnect()` and re-raises; a decoded reply sets the
id, checks the retrieval offset for non-tailable cursors (an assertion
failure escapes), accumulates the retrieved count, installs the batch, and
dies when the reply demands it. -/
def modCallback (s : State) (r : RawResponse) : State × Outcome :=
  match r with
  | .exc e => ({ s with error := some e }, .continued)
  | .data cid payload =>
    let s1 := { s with connectionId := cid }
    match payload with
    | .bad => ({ s1 with disconnected := true }, .raised .autoReconnect)
    | .reply rep =>
      let s2 := { s1 with id := some rep.cursorId }
      if !s2.tailable && !(rep.startingFrom == s2.retrieved) then
        (s2, .raised .assertionError)
      else
        let s3 := { s2 with retrieved := s2.retrieved + rep.numberReturned,
                            data := rep.data }
        let dieNow := rep.cursorId == 0 || rep.data.isEmpty ||
          (!(s3.limit == 0) && !(rep.cursorId == 0) &&
            decide (s3.limit ≤ s3.retrieved))
        if dieNow then (die s3, .continued) else (s3, .continued)

/-- The documents the result sink retains from one buffered batch
(`Cursor.loop`, lines 518-535): each document passes through the external
outgoing fixup `fix`, then through the stored processor (interpreted by the
call semantics `app`) when one is set; it is appended only when `store` holds
and the transformed document is truthy. -/
def keptDocs (fix : PyVal → PyVal) (app : PyVal → PyVal → PyVal)
    (processor : PyVal) (store : Bool) (docs : List PyVal) : List PyVal :=
  docs.filterMap (fun r =>
    let r := fix r
    let r := if truthy processor then app processor r else r
    if store && truthy r then some r else none)

/-- The drain phase of `Cursor.loop`: move the buffered batch through the
sink into the accumulated datastore and empty the buffer. -/
def drain (fix : PyVal → PyVal) (app : PyVal → PyVal → PyVal)
    (s : State) : State :=
  { s with
    datastore := s.datastore ++ keptDocs fix app s.processor s.store s.data
    data := [] }

/-- What a completed drive pass reports: a value delivered to the stored
callback, a dispatched request awaiting its response, a stall (refresh with
a zero id sends nothing and calls nothing), or an exception propagated out
of the response callback. -/
inductive Delivered where
  | err (e : PyErr)
  | docs (ds : List PyVal)

inductive DriveOut where
  | delivered (v : Delivered)
  | awaiting (m : Msg)
  | stalled
  | raisedAcross (e : PyErr)

/-- One entry of `Cursor.loop` (lines 505-543) up to its suspension point:
deliver a stored error; otherwise drain, then either deliver the datastore
(killed) or dispatch the message `_refresh` selects. -/
inductive StepRes where
  | done (out : State × DriveOut)
  | send (s1 : State) (m : Msg)

def loopOnce (fix : PyVal → PyVal) (app : PyVal → PyVal → PyVal)
    (s : State) : StepRes :=
  match s.error with
  | some e => .done (s, .delivered (.err e))
  | none =>
    let s1 := drain fix app s
    if s1.killed then .done (s1, .delivered (.docs s1.datastore))
    else
      match request s1 with
      | none => .done (s1, .stalled)
      | some m => .send s1 m

/-- The drive-to-completion loop: `loop` re-enters itself as the
continuation registered with every dispatched message, so each dispatched
request consumes the next element of the pending response list. -/
def drive (fix : PyVal → PyVal) (app : PyVal → PyVal → PyVal)
    (s : State) : List RawResponse → State × DriveOut
  | [] =>
    match loopOnce fix app s with
    | .done out => out
    | .send s1 m => (s1, .awaiting m)
  | r :: rest =>
    match loopOnce fix app s with
    | .done out => out
    | .send s1 _ =>
      match modCallback s1 r with
      | (s2, .continued) => drive fix app s2 rest
      | (s2, .raised e) => (s2, .raisedAcross e)

/-- A sample collection handle for concrete runs. -/
def mkColl : Coll := { fullName := "db.c", slaveOkay := false }

/-- A freshly constructed cursor over `mkColl` with the given limit and
batch size and all other options left at their defaults, exactly as
`__init__` leaves them. -/
def mkFresh (limit batchSize : Int) : State :=
  { coll := mkColl, callback := .pnone, processor := .pnone, spec := []
    fields := none, skip := 0, limit := limit, batchSize := batchSize
    store := true, empty := false, timeout := true, tailable := false
    snapshot := false, ordering := none, maxScan := none, explain := false
    hint := none, mustUseMaster := false, isCommand := false, data := []
    datastore := [], connectionId := none, retrieved := 0, killed := false
    id := none, error := none, killSends := 0, disconnected := false }

/-- Five documents and two documents, as server batches. -/
def docsA : List PyVal := [.pint 1, .pint 2, .pint 3, .pint 4, .pint 5]

def docsB : List PyVal := [.pint 6, .pint 7]

/-- A well-behaved two-reply run for a cursor with limit 7: a first batch of
five with a live id, then the two further documents the get-more asks for. -/
def goodReplies : List RawResponse :=
  [.data none (.reply ⟨123, 0, 5, docsA⟩),
   .data none (.reply ⟨123, 5, 2, docsB⟩)]

/-- An adversarial run: the second reply returns five documents although the
get-more requested only two. -/
def overrunReplies : List RawResponse :=
  [.data none (.reply ⟨123, 0, 5, docsA⟩),
   .data none (.reply ⟨123, 5, 5, docsA⟩)]

/-- The state `mod_callback` builds from a successfully decoded reply
before deciding whether to die: affinity recorded, id installed, retrieved
count accumulated, batch replaced. -/
def applyReply (s : State) (cid : Option Nat) (rep : Reply) : State :=
  { s with
    connectionId := cid
    id := some rep.cursorId
    retrieved := s.retrieved + rep.numberReturned
    data := rep.data }

/-- The reply test `mod_callback` evaluates after installing the batch. -/
def dieNowB (s : State) (rep : Reply) : Bool :=
  rep.cursorId == 0 || rep.data.isEmpty ||
    (!(s.limit == 0) && !(rep.cursorId == 0) &&
      decide (s.limit ≤ s.retrieved + rep.numberReturned))

/-- The batch count carried by a dispatched message. -/
def reqCount : Msg → Int
  | .query _ _ _ n _ _ => n
  | .getMore _ n _ => n

/-- The invariant tying the accumulated sink to the retrieved count for a
cursor with a nonzero limit and a nonnegative batch size: the sink plus the
buffered batch never hold more documents than were retrieved, the retrieved
count never passes the absolute limit, and a still-live cursor is either
unqueried with nothing retrieved or holds a nonzero id with a positive
limit not yet reached. -/
def LimitInv (s : State) : Prop :=
  s.limit ≠ 0 ∧ 0 ≤ s.batchSize ∧ 0 ≤ s.retrieved ∧
  ((s.datastore.length : Int) + (s.data.length : Int) ≤ s.retrieved) ∧
  s.retrieved ≤ (s.limit.natAbs : Int) ∧
  (s.killed = false →
    (match s.id with
     | none => s.retrieved = 0
     | some i => i ≠ 0 ∧ 0 < s.limit ∧ s.retrieved < s.limit))

/-- A well-behaved exchange: along the drive, every decoded reply reports
its true batch length and never returns more documents than the dispatched
message requested (a request count of zero leaves the batch size to the
server). -/
def Honors (fix : PyVal → PyVal) (app : PyVal → PyVal → PyVal)
    (s : State) : List RawResponse → Prop
  | [] => True
  | r :: rest =>
    match loopOnce fix app s with
    | .done _ => True
    | .send s1 m =>
      match r with
      | .data cid (.reply rep) =>
        (rep.numberReturned = (rep.data.length : Int) ∧
          (reqCount m ≠ 0 →
            (rep.data.length : Int) ≤ ((reqCount m).natAbs : Int))) ∧
        Honors fix app (modCallback s1 (.data cid (.reply rep))).1 rest
      | _ => True

/-- A partially evaluated cursor with five accumulated documents, a stored
terminal error, a live id and the killed flag set, for exercising rewind. -/
def usedCursor : State :=
  { mkFresh 7 0 with
    datastore := docsA
    error := some .autoReconnect
    id := some 123
    retrieved := 5
    killed := true }

/-- Claim C1: `clone()` can never return the configured fresh cursor the
claim describes: because `__init__` takes `callback` and `processor` before
`spec`, the positional call in `clone` binds the integer `self.__skip` to
the `spec` parameter, and the `isinstance(spec, dict)` validation raises
`TypeError` for every cursor. -/
theorem clone_raises_type_error (s : State) :
    clone s = .error .typeError := rfl

/-- Claim C3: `batch_size` stores `2` for the argument `1`, stores `0` and
any argument above `1` unchanged, raises `TypeError` for a non-int argument
and `ValueError` for a negative one leaving the state unchanged; the
normalization to `2` is performed at assignment time, so a later get-more
on a limitless cursor requests the stored `2`. -/
theorem batch_size_normalization (s : State) (b : Int)
    (h : chainBlocked s = false) :
    Cursor.batchSize s (.pint 1) = ({ s with batchSize := 2 }, none) ∧
    (b = 0 ∨ 1 < b →
      Cursor.batchSize s (.pint b) = ({ s with batchSize := b }, none)) ∧
    (∀ v : PyVal, v.isInt = false →
      Cursor.batchSize s v = (s, some .typeError)) ∧
    (b < 0 → Cursor.batchSize s (.pint b) = (s, some .valueError)) ∧
    (s.limit = 0 → getMoreCount (Cursor.batchSize s (.pint 1)).1 = 2) := by
  refine ⟨?_, ?_, ?_, ?_, ?_⟩
  · simp [Cursor.batchSize, PyVal.isInt, PyVal.toInt, h]
  · rintro (rfl | hb)
    · simp [Cursor.batchSize, PyVal.isInt, PyVal.toInt, h]
    · have hb0 : ¬ b < 0 := by omega
      have hb1 : ¬ b = 1 := by omega
      simp [Cursor.batchSize, PyVal.isInt, PyVal.toInt, h, hb0, hb1]
  · intro v hv
    simp [Cursor.batchSize, hv]
  · intro hb
    simp [Cursor.batchSize, PyVal.isInt, PyVal.toInt, hb]
  · intro hl
    simp [Cursor.batchSize, PyVal.isInt, PyVal.toInt, h, getMoreCount, hl]

theorem batch_size_normalization_witness :
    Cursor.batchSize (mkFresh 0 0) (.pint 1) =
      ({ mkFresh 0 0 with batchSize := 2 }, none) ∧
    Cursor.batchSize (mkFresh 0 0) (.pint 3) =
      ({ mkFresh 0 0 with batchSize := 3 }, none) ∧
    Cursor.batchSize (mkFresh 0 0) (.pstr "x") =
      (mkFresh 0 0, some .typeError) ∧
    Cursor.batchSize (mkFresh 0 0) (.pint (-2)) =
      (mkFresh 0 0, some .valueError) ∧
    getMoreCount (Cursor.batchSize (mkFresh 0 0) (.pint 1)).1 = 2 :=
  ⟨(batch_size_normalization (mkFresh 0 0) 3 rfl).1,
   (batch_size_normalization (mkFresh 0 0) 3 rfl).2.1 (Or.inr (by decide)),
   (batch_size_normalization (mkFresh 0 0) 3 rfl).2.2.1 (.pstr "x") rfl,
   (batch_size_normalization (mkFresh 0 0) (-2) rfl).2.2.2.1 (by decide),
   (batch_size_normalization (mkFresh 0 0) 3 rfl).2.2.2.2 rfl⟩

/-- Claim C5: disposal dispatches one kill-cursor exactly when the server
cursor id is a nonzero live value and the cursor is not yet killed, then
marks the cursor killed; with the id `0`, unset, or the cursor already
killed it dispatches nothing, and a repeated disposal (directly or through
the finalizer) is a no-op. -/
theorem die_kill_dispatch (s : State) :
    (die s).killed = true ∧
    (truthyId s.id = true → s.killed = false →
      (die s).killSends = s.killSends + 1) ∧
    (s.id = none ∨ s.id = some 0 → (die s).killSends = s.killSends) ∧
    (s.killed = true → (die s).killSends = s.killSends) ∧
    die (die s) = die s ∧
    delFinalizer (die s) = die s := by
  refine ⟨?_, ?_, ?_, ?_, ?_, ?_⟩
  · simp only [die]
    split <;> rfl
  · intro ht hk
    simp [die, ht, hk]
  · rintro (h | h) <;> simp [die, truthyId, h]
  · intro hk
    simp [die, hk]
  · by_cases h : (truthyId s.id && !s.killed) = true
    · simp [die, h]
    · simp [die, h]
  · by_cases h : (truthyId s.id && !s.killed) = true
    · simp [die, delFinalizer, h]
    · simp [die, delFinalizer, h]

theorem die_kill_dispatch_witness :
    (die { mkFresh 7 0 with id := some 123 }).killed = true ∧
    (die { mkFresh 7 0 with id := some 123 }).killSends =
      ({ mkFresh 7 0 with id := some 123 } : State).killSends + 1 ∧
    (die { mkFresh 7 0 with id := some 0 }).killSends =
      ({ mkFresh 7 0 with id := some 0 } : State).killSends ∧
    die (die { mkFresh 7 0 with id := some 123 }) =
      die { mkFresh 7 0 with id := some 123 } ∧
    delFinalizer (die { mkFresh 7 0 with id := some 123 }) =
      die { mkFresh 7 0 with id := some 123 } :=
  ⟨(die_kill_dispatch { mkFresh 7 0 with id := some 123 }).1,
   (die_kill_dispatch { mkFresh 7 0 with id := some 123 }).2.1 rfl rfl,
   (die_kill_dispatch { mkFresh 7 0 with id := some 0 }).2.2.1
     (Or.inr rfl),
   (die_kill_dispatch { mkFresh 7 0 with id := some 123 }).2.2.2.2.1,
   (die_kill_dispatch { mkFresh 7 0 with id := some 123 }).2.2.2.2.2⟩

/-- Claim C9: with a live server cursor id, `_refresh` issues a get-more
whose batch count is `limit - retrieved` bounded above by the batch size
when both are nonzero, `limit - retrieved` when only the limit is nonzero,
and the bare batch size when the limit is zero. -/
theorem get_more_request (s : State) (i : Int) (h1 : s.id = some i)
    (h2 : i ≠ 0) :
    request s = some (.getMore s.coll.fullName (getMoreCount s) i) ∧
    (s.limit ≠ 0 → s.batchSize ≠ 0 →
      getMoreCount s = min (s.limit - s.retrieved) s.batchSize) ∧
    (s.limit ≠ 0 → s.batchSize = 0 →
      getMoreCount s = s.limit - s.retrieved) ∧
    (s.limit = 0 → getMoreCount s = s.batchSize) := by
  refine ⟨?_, ?_, ?_, ?_⟩
  · simp [request, h1, h2]
  · intro hl hb
    simp [getMoreCount, hl, hb]
  · intro hl hb
    simp [getMoreCount, hl, hb]
  · intro hl
    simp [getMoreCount, hl]

theorem get_more_request_witness :
    request { mkFresh 7 3 with id := some 123, retrieved := 5 } =
      some (.getMore "db.c" 2 123) ∧
    getMoreCount { mkFresh 7 3 with id := some 123, retrieved := 5 } =
      min (((7 : Int)) - 5) 3 ∧
    getMoreCount { mkFresh 7 0 with id := some 123, retrieved := 5 } =
      (7 : Int) - 5 ∧
    getMoreCount { mkFresh 0 4 with id := some 9 } = 4 :=
  ⟨(get_more_request { mkFresh 7 3 with id := some 123, retrieved := 5 }
      123 rfl (by decide)).1,
   (get_more_request { mkFresh 7 3 with id := some 123, retrieved := 5 }
      123 rfl (by decide)).2.1 (by decide) (by decide),
   (get_more_request { mkFresh 7 0 with id := some 123, retrieved := 5 }
      123 rfl (by decide)).2.2.1 (by decide) rfl,
   (get_more_request { mkFresh 0 4 with id := some 9 }
      9 rfl (by decide)).2.2.2 rfl⟩

/-- Claim C2: every chain-configuration method called with an acceptable
argument fails with `InvalidOperation` and leaves the cursor unchanged once
execution has begun (`retrieved` nonzero or the server cursor id set), and
succeeds while the cursor is unexecuted. -/
theorem chain_guard (s : State) (l k b : Int) (ms kl dir ix cd : PyVal) :
    (chainBlocked s = true ↔ (s.retrieved ≠ 0 ∨ s.id ≠ none)) ∧
    (chainBlocked s = true →
      Cursor.limit s (.pint l) = (s, some .invalidOperation) ∧
      Cursor.skip s (.pint k) = (s, some .invalidOperation) ∧
      (0 ≤ b → Cursor.batchSize s (.pint b) = (s, some .invalidOperation)) ∧
      Cursor.maxScan s ms = (s, some .invalidOperation) ∧
      Cursor.sort s kl dir = (s, some .invalidOperation) ∧
      Cursor.hint s ix = (s, some .invalidOperation) ∧
      Cursor.whereMethod s cd = (s, some .invalidOperation)) ∧
    (chainBlocked s = false →
      Cursor.limit s (.pint l) = ({ s with empty := false, limit := l }, none) ∧
      Cursor.skip s (.pint k) = ({ s with skip := k }, none) ∧
      (0 ≤ b → Cursor.batchSize s (.pint b) =
        ({ s with batchSize := if b == 1 then 2 else b }, none)) ∧
      (Cursor.maxScan s ms).2 = none ∧
      Cursor.sort s kl dir =
        ({ s with ordering := some (indexList kl dir) }, none) ∧
      (Cursor.hint s ix).2 = none ∧
      Cursor.whereMethod s cd =
        ({ s with spec := Cursor.setKey s.spec "$where" (Cursor.asCode cd) },
          none)) := by
  refine ⟨?_, ?_, ?_⟩
  · simp [chainBlocked, Option.isSome_iff_exists]
    constructor
    · rintro (h | ⟨i, h⟩)
      · exact Or.inl h
      · exact Or.inr (by simp [h])
    · rintro (h | h)
      · exact Or.inl h
      · rcases Option.ne_none_iff_exists.mp h with ⟨i, hi⟩
        exact Or.inr ⟨i, hi.symm⟩
  · intro hb
    have hnot : ¬ chainBlocked s = false := by simp [hb]
    refine ⟨?_, ?_, ?_, ?_, ?_, ?_, ?_⟩
    · simp [Cursor.limit, PyVal.isInt, hb]
    · simp [Cursor.skip, PyVal.isInt, hb]
    · intro h0
      have : ¬ (PyVal.pint b).toInt < 0 := by simp [PyVal.toInt]; omega
      simp [Cursor.batchSize, PyVal.isInt, hb, this]
    · simp [Cursor.maxScan, hb]
    · simp [Cursor.sort, hb]
    · simp only [Cursor.hint, hb, if_true]
    · simp [Cursor.whereMethod, hb]
  · intro hb
    refine ⟨?_, ?_, ?_, ?_, ?_, ?_, ?_⟩
    · simp [Cursor.limit, PyVal.isInt, PyVal.toInt, hb]
    · simp [Cursor.skip, PyVal.isInt, PyVal.toInt, hb]
    · intro h0
      have : ¬ (PyVal.pint b).toInt < 0 := by simp [PyVal.toInt]; omega
      simp [Cursor.batchSize, PyVal.isInt, PyVal.toInt, hb, this]
      omega
    · simp [Cursor.maxScan, hb]
    · simp [Cursor.sort, hb]
    · simp [Cursor.hint, hb]
      cases ix <;> simp
    · simp [Cursor.whereMethod, hb]

theorem chain_guard_witness :
    Cursor.limit { mkFresh 0 0 with id := some 123 } (.pint 5) =
      ({ mkFresh 0 0 with id := some 123 }, some .invalidOperation) ∧
    Cursor.sort { mkFresh 0 0 with retrieved := 4 } (.pstr "a") (.pint 1) =
      ({ mkFresh 0 0 with retrieved := 4 }, some .invalidOperation) ∧
    Cursor.limit (mkFresh 0 0) (.pint 5) =
      ({ mkFresh 0 0 with empty := false, limit := 5 }, none) ∧
    Cursor.whereMethod (mkFresh 0 0) (.pstr "this.a > 1") =
      ({ mkFresh 0 0 with
          spec := [("$where", .pcode "this.a > 1")] }, none) :=
  ⟨((chain_guard { mkFresh 0 0 with id := some 123 }
      5 0 0 .pnone .pnone .pnone .pnone .pnone).2.1 rfl).1,
   ((chain_guard { mkFresh 0 0 with retrieved := 4 }
      5 0 0 .pnone (.pstr "a") (.pint 1) .pnone .pnone).2.1 rfl).2.2.2.2.1,
   ((chain_guard (mkFresh 0 0)
      5 0 0 .pnone .pnone .pnone .pnone .pnone).2.2 rfl).1,
   ((chain_guard (mkFresh 0 0)
      5 0 0 .pnone .pnone .pnone .pnone
      (.pstr "this.a > 1")).2.2 rfl).2.2.2.2.2.2⟩

theorem applyReply_killed (s : State) (cid : Option Nat) (rep : Reply) :
    (applyReply s cid rep).killed = s.killed := rfl

theorem die_killed (x : State) : (die x).killed = true := by
  simp only [die]
  split <;> rfl

/-- `mod_callback` on a successfully decoded reply whose offset check
passes: it applies the reply, then dies exactly when the reply demands. -/
theorem modCallback_apply (s : State) (cid : Option Nat) (rep : Reply)
    (ha : s.tailable = true ∨ rep.startingFrom = s.retrieved) :
    modCallback s (.data cid (.reply rep)) =
      (if dieNowB s rep then (die (applyReply s cid rep), .continued)
       else (applyReply s cid rep, .continued)) := by
  rcases ha with h | h <;> simp [modCallback, applyReply, dieNowB, h]

/-- Claim C4: after a successful decoded reply is applied, the cursor is
killed exactly when the new server cursor id is zero, the batch is empty, or
the limit is nonzero, the id nonzero and the updated retrieved count has
reached the limit. -/
theorem reply_kill_condition (s : State) (cid : Option Nat) (rep : Reply)
    (hk : s.killed = false)
    (ha : s.tailable = true ∨ rep.startingFrom = s.retrieved) :
    ((modCallback s (.data cid (.reply rep))).1.killed = true ↔
      (rep.cursorId = 0 ∨ rep.data = [] ∨
        (s.limit ≠ 0 ∧ rep.cursorId ≠ 0 ∧
          s.limit ≤ s.retrieved + rep.numberReturned))) := by
  rw [modCallback_apply s cid rep ha]
  by_cases hdie : dieNowB s rep = true
  · rw [if_pos hdie]
    simp only [die_killed, true_iff]
    have h2 := hdie
    simp only [dieNowB, Bool.or_eq_true, Bool.and_eq_true, beq_iff_eq,
      Bool.not_eq_true', beq_eq_false_iff_ne, ne_eq, List.isEmpty_iff,
      decide_eq_true_eq] at h2
    tauto
  · rw [if_neg hdie]
    simp only [applyReply_killed, hk, Bool.false_eq_true, false_iff]
    intro hprop
    apply hdie
    simp only [dieNowB, Bool.or_eq_true, Bool.and_eq_true, beq_iff_eq,
      Bool.not_eq_true', beq_eq_false_iff_ne, ne_eq, List.isEmpty_iff,
      decide_eq_true_eq]
    tauto

theorem reply_kill_condition_witness :
    ((modCallback (mkFresh 7 0) (.data none (.reply ⟨123, 0, 5, docsA⟩))).1.killed
        = true ↔
      ((123 : Int) = 0 ∨ docsA = [] ∨
        ((mkFresh 7 0).limit ≠ 0 ∧ (123 : Int) ≠ 0 ∧
          (mkFresh 7 0).limit ≤ (mkFresh 7 0).retrieved + 5))) :=
  reply_kill_condition (mkFresh 7 0) none ⟨123, 0, 5, docsA⟩ rfl
    (Or.inr rfl)

theorem die_retrieved (x : State) : (die x).retrieved = x.retrieved := by
  simp only [die]
  split <;> rfl

theorem die_datastore (x : State) : (die x).datastore = x.datastore := by
  simp only [die]
  split <;> rfl

theorem die_data (x : State) : (die x).data = x.data := by
  simp only [die]
  split <;> rfl

theorem die_limit (x : State) : (die x).limit = x.limit := by
  simp only [die]
  split <;> rfl

theorem die_batchSize (x : State) : (die x).batchSize = x.batchSize := by
  simp only [die]
  split <;> rfl

theorem die_id (x : State) : (die x).id = x.id := by
  simp only [die]
  split <;> rfl

theorem die_error (x : State) : (die x).error = x.error := by
  simp only [die]
  split <;> rfl

theorem die_processor (x : State) : (die x).processor = x.processor := by
  simp only [die]
  split <;> rfl

theorem die_store (x : State) : (die x).store = x.store := by
  simp only [die]
  split <;> rfl

/-- A stored terminal error short-circuits the next drive entry: it is
delivered to the stored callback before any drain or dispatch. -/
theorem drive_error (fix : PyVal → PyVal) (app : PyVal → PyVal → PyVal)
    (s : State) (rs : List RawResponse) (e : PyErr)
    (h : s.error = some e) :
    drive fix app s rs = (s, .delivered (.err e)) := by
  cases rs <;> simp [drive, loopOnce, h]

/-- Claim C6: for a non-tailable cursor a reply whose starting offset
differs from the retrieved count makes the response callback fail with an
assertion error before touching the retrieved count or the batch, and the
drive loop then propagates the exception without consuming further replies;
for a tailable cursor the offset check is skipped and every reply is
applied. -/
theorem starting_from_check (s : State) (cid : Option Nat) (rep : Reply) :
    (s.tailable = false → rep.startingFrom ≠ s.retrieved →
      modCallback s (.data cid (.reply rep)) =
        ({ s with connectionId := cid, id := some rep.cursorId },
          .raised .assertionError)) ∧
    (s.tailable = true →
      (modCallback s (.data cid (.reply rep))).2 = .continued ∧
      (modCallback s (.data cid (.reply rep))).1.retrieved =
        s.retrieved + rep.numberReturned) ∧
    (∀ (fix : PyVal → PyVal) (app : PyVal → PyVal → PyVal)
        (r : RawResponse) (rest : List RawResponse) (m : Msg) (s2 : State)
        (e : PyErr),
      s.error = none → (drain fix app s).killed = false →
      request (drain fix app s) = some m →
      modCallback (drain fix app s) r = (s2, .raised e) →
      drive fix app s (r :: rest) = (s2, .raisedAcross e)) := by
  refine ⟨?_, ?_, ?_⟩
  · intro ht hne
    simp [modCallback, ht, hne]
  · intro ht
    have ha : s.tailable = true ∨ rep.startingFrom = s.retrieved :=
      Or.inl ht
    rw [modCallback_apply s cid rep ha]
    constructor
    · split <;> rfl
    · split
      · simp [die_retrieved, applyReply]
      · simp [applyReply]
  · intro fix app r rest m s2 e he hk1 hreq hmc
    simp [drive, loopOnce, he, hk1, hreq, hmc]

theorem starting_from_check_witness :
    modCallback (mkFresh 7 0) (.data none (.reply ⟨123, 5, 5, docsA⟩)) =
      ({ mkFresh 7 0 with connectionId := none, id := some 123 },
        .raised .assertionError) ∧
    (modCallback { mkFresh 7 0 with tailable := true }
      (.data none (.reply ⟨123, 5, 5, docsA⟩))).2 = .continued ∧
    (modCallback { mkFresh 7 0 with tailable := true }
      (.data none (.reply ⟨123, 5, 5, docsA⟩))).1.retrieved =
      ({ mkFresh 7 0 with tailable := true } : State).retrieved + 5 ∧
    drive (fun d => d) (fun _ d => d) (mkFresh 7 0)
        [.data none (.reply ⟨123, 5, 5, docsA⟩)] =
      ({ drain (fun d => d) (fun _ d => d) (mkFresh 7 0) with
          connectionId := none
          id := some 123 },
        .raisedAcross .assertionError) :=
  ⟨(starting_from_check (mkFresh 7 0) none ⟨123, 5, 5, docsA⟩).1
      rfl (by decide),
   ((starting_from_check { mkFresh 7 0 with tailable := true } none
      ⟨123, 5, 5, docsA⟩).2.1 rfl).1,
   ((starting_from_check { mkFresh 7 0 with tailable := true } none
      ⟨123, 5, 5, docsA⟩).2.1 rfl).2,
   (starting_from_check (mkFresh 7 0) none ⟨123, 5, 5, docsA⟩).2.2
      (fun d => d) (fun _ d => d) (.data none (.reply ⟨123, 5, 5, docsA⟩))
      [] (.query 0 "db.c" 0 7 [("$query", .pdict [])] none)
      { drain (fun d => d) (fun _ d => d) (mkFresh 7 0) with
          connectionId := none
          id := some 123 }
      .assertionError rfl rfl rfl rfl⟩

/-- Claim C7 counterexample: a decode failure classified for reconnect is
not recorded as the stored terminal error; it escapes across the
asynchronous boundary as a raised exception, contrary to the claim that the
failure is stored and that no terminal failure is ever thrown across that
boundary. -/
theorem reconnect_raise_cex :
    (modCallback (mkFresh 0 0) (.data (some 5) .bad)).1.error = none ∧
    (modCallback (mkFresh 0 0) (.data (some 5) .bad)).2 =
      .raised .autoReconnect ∧
    (modCallback (mkFresh 0 0) (.data (some 5) .bad)).1.disconnected =
      true :=
  ⟨rfl, rfl, rfl⟩

/-- Claim C7 (amended): a reconnect-classified decode failure triggers the
transport-level disconnect and is re-raised across the asynchronous
boundary rather than stored; a failure delivered by the transport as the
response value is stored as the terminal error, and a stored terminal error
is delivered through the continuation on the next drive step with no
request re-issued. -/
theorem reconnect_disconnect_and_raise (s : State) (cid : Option Nat)
    (e : PyErr) :
    modCallback s (.data cid .bad) =
      ({ s with connectionId := cid, disconnected := true },
        .raised .autoReconnect) ∧
    modCallback s (.exc e) = ({ s with error := some e }, .continued) ∧
    (∀ (fix : PyVal → PyVal) (app : PyVal → PyVal → PyVal)
        (rs : List RawResponse),
      s.error = some e → drive fix app s rs = (s, .delivered (.err e))) := by
  refine ⟨rfl, rfl, ?_⟩
  intro fix app rs he
  exact drive_error fix app s rs e he

theorem reconnect_disconnect_and_raise_witness :
    (modCallback { mkFresh 0 0 with error := some .autoReconnect }
        (.data (some 5) .bad) =
      ({ mkFresh 0 0 with
          error := some .autoReconnect
          connectionId := some 5
          disconnected := true },
        .raised .autoReconnect) ∧
    modCallback { mkFresh 0 0 with error := some .autoReconnect }
        (.exc .autoReconnect) =
      ({ mkFresh 0 0 with error := some .autoReconnect }, .continued) ∧
    drive (fun d => d) (fun _ d => d)
        { mkFresh 0 0 with error := some .autoReconnect } [] =
      ({ mkFresh 0 0 with error := some .autoReconnect },
        .delivered (.err .autoReconnect))) :=
  ⟨(reconnect_disconnect_and_raise
      { mkFresh 0 0 with error := some .autoReconnect }
      (some 5) .autoReconnect).1,
   (reconnect_disconnect_and_raise
      { mkFresh 0 0 with error := some .autoReconnect }
      (some 5) .autoReconnect).2.1,
   (reconnect_disconnect_and_raise
      { mkFresh 0 0 with error := some .autoReconnect }
      (some 5) .autoReconnect).2.2 (fun d => d) (fun _ d => d) [] rfl⟩

/-- Claim C10: `rewind` clears exactly the buffered batch, the server
cursor id, the connection affinity, the retrieved count and the killed
flag; the accumulated datastore and a stored terminal error survive, so a
drive after rewind re-delivers the old error, and documents drained after a
rewind are appended onto the documents accumulated before it. -/
theorem rewind_frame (s : State) :
    (rewind s).datastore = s.datastore ∧
    (rewind s).error = s.error ∧
    (rewind s).data = [] ∧
    (rewind s).id = none ∧
    (rewind s).connectionId = none ∧
    (rewind s).retrieved = 0 ∧
    (rewind s).killed = false ∧
    (rewind s).limit = s.limit ∧
    (rewind s).skip = s.skip ∧
    (rewind s).spec = s.spec ∧
    (rewind s).ordering = s.ordering ∧
    (rewind s).batchSize = s.batchSize ∧
    (∀ (fix : PyVal → PyVal) (app : PyVal → PyVal → PyVal)
        (rs : List RawResponse) (e : PyErr),
      s.error = some e →
      drive fix app (rewind s) rs = (rewind s, .delivered (.err e))) ∧
    (∀ (fix : PyVal → PyVal) (app : PyVal → PyVal → PyVal)
        (cid : Option Nat) (rep : Reply),
      rep.startingFrom = 0 →
      (drain fix app
        (modCallback (rewind s) (.data cid (.reply rep))).1).datastore =
        s.datastore ++ keptDocs fix app s.processor s.store rep.data) := by
  refine ⟨rfl, rfl, rfl, rfl, rfl, rfl, rfl, rfl, rfl, rfl, rfl, rfl,
    ?_, ?_⟩
  · intro fix app rs e he
    exact drive_error fix app (rewind s) rs e he
  · intro fix app cid rep hsf
    have ha : (rewind s).tailable = true ∨
        rep.startingFrom = (rewind s).retrieved := Or.inr hsf
    rw [modCallback_apply (rewind s) cid rep ha]
    split
    · simp [drain, die_datastore, die_data, die_processor, die_store,
        applyReply, rewind]
    · simp [drain, applyReply, rewind]

theorem rewind_frame_witness :
    (rewind usedCursor).datastore = docsA ∧
    (rewind usedCursor).error = some .autoReconnect ∧
    drive (fun d => d) (fun _ d => d) (rewind usedCursor) [] =
      (rewind usedCursor, .delivered (.err .autoReconnect)) ∧
    (drain (fun d => d) (fun _ d => d)
      (modCallback (rewind usedCursor)
        (.data none (.reply ⟨0, 0, 2, docsB⟩))).1).datastore =
      docsA ++ docsB := by
  refine ⟨?_, ?_, ?_, ?_⟩
  · exact (rewind_frame usedCursor).1
  · exact (rewind_frame usedCursor).2.1
  · exact (rewind_frame usedCursor).2.2.2.2.2.2.2.2.2.2.2.2.1
      (fun d => d) (fun _ d => d) [] .autoReconnect rfl
  · exact (rewind_frame usedCursor).2.2.2.2.2.2.2.2.2.2.2.2.2
      (fun d => d) (fun _ d => d) none ⟨0, 0, 2, docsB⟩ rfl

theorem keptDocs_length_le (fix : PyVal → PyVal) (app : PyVal → PyVal → PyVal)
    (p : PyVal) (st : Bool) (docs : List PyVal) :
    (keptDocs fix app p st docs).length ≤ docs.length :=
  List.length_filterMap_le _ _

theorem drain_limit (fix : PyVal → PyVal) (app : PyVal → PyVal → PyVal)
    (s : State) : (drain fix app s).limit = s.limit := rfl

/-- Draining preserves the limit invariant: moving kept documents from the
buffer into the sink cannot increase the combined count. -/
theorem inv_drain (fix : PyVal → PyVal) (app : PyVal → PyVal → PyVal)
    (s : State) (hI : LimitInv s) : LimitInv (drain fix app s) := by
  obtain ⟨hl0, hbs, hr0, hds, hrl, hkc⟩ := hI
  refine ⟨hl0, hbs, hr0, ?_, hrl, hkc⟩
  have hkept := keptDocs_length_le fix app s.processor s.store s.data
  simp only [drain, List.length_append, List.length_nil]
  push_cast
  omega

theorem inv_datastore_bound (s : State) (hI : LimitInv s) :
    (s.datastore.length : Int) ≤ (s.limit.natAbs : Int) := by
  obtain ⟨hl0, hbs, hr0, hds, hrl, hkc⟩ := hI
  have : (0 : Int) ≤ s.data.length := by positivity
  omega

/-- Dying preserves the limit invariant: only the killed flag and the
dispatch count change. -/
theorem inv_die (x : State) (hI : LimitInv x) : LimitInv (die x) := by
  obtain ⟨hl0, hbs, hr0, hds, hrl, hkc⟩ := hI
  simp only [die]
  split
  · exact ⟨hl0, hbs, hr0, hds, hrl, by intro h; cases h⟩
  · exact ⟨hl0, hbs, hr0, hds, hrl, by intro h; cases h⟩

/-- `mod_callback` on a reply failing the offset check of a non-tailable
cursor: the assertion error escapes with only affinity and id updated. -/
theorem modCallback_assert (s : State) (cid : Option Nat) (rep : Reply)
    (ht : s.tailable = false) (hne : rep.startingFrom ≠ s.retrieved) :
    modCallback s (.data cid (.reply rep)) =
      ({ s with connectionId := cid, id := some rep.cursorId },
        .raised .assertionError) := by
  simp [modCallback, ht, hne]

theorem getMoreCount_bounds (s : State) (h0 : 0 < s.limit)
    (hr : s.retrieved < s.limit) (hbs : 0 ≤ s.batchSize) :
    0 < getMoreCount s ∧ getMoreCount s ≤ s.limit - s.retrieved := by
  have hne : s.limit ≠ 0 := by omega
  simp only [getMoreCount, if_pos hne]
  by_cases hb : s.batchSize ≠ 0
  · rw [if_pos hb]
    constructor
    · exact lt_min (by omega) (by omega)
    · exact min_le_left _ _
  · rw [if_neg hb]
    constructor <;> omega

/-- One well-behaved reply preserves the limit invariant: the reply returns
no more than the dispatched request asked for, so the retrieved count stays
within the absolute limit, and the cursor either dies or remains strictly
below its limit. -/
theorem step_inv (s : State) (cid : Option Nat) (rep : Reply) (m : Msg)
    (hI : LimitInv s) (hk : s.killed = false) (hm : request s = some m)
    (ha : s.tailable = true ∨ rep.startingFrom = s.retrieved)
    (hn : rep.numberReturned = (rep.data.length : Int))
    (hb : reqCount m ≠ 0 →
      (rep.data.length : Int) ≤ ((reqCount m).natAbs : Int)) :
    LimitInv (modCallback s (.data cid (.reply rep))).1 := by
  obtain ⟨hl0, hbs, hr0, hds, hrl, hkc⟩ := hI
  have hdlen : (0 : Int) ≤ (rep.data.length : Int) := by positivity
  have hret : s.retrieved + rep.numberReturned ≤ (s.limit.natAbs : Int) := by
    rcases hid : s.id with _ | i
    · have hr00 : s.retrieved = 0 := by
        have := hkc hk
        rw [hid] at this
        exact this
      have hm' : Msg.query (queryOptions s) s.coll.fullName s.skip s.limit
          (querySpec s) s.fields = m := by
        simpa [request, hid] using hm
      have hbound := hb (by rw [← hm']; simpa [reqCount] using hl0)
      rw [← hm'] at hbound
      simp only [reqCount] at hbound
      omega
    · have hkc' := hkc hk
      rw [hid] at hkc'
      obtain ⟨hi0, hlpos, hrlim⟩ := hkc'
      have hm' : Msg.getMore s.coll.fullName (getMoreCount s) i = m := by
        have : (i == 0) = false := by simpa using hi0
        simpa [request, hid, this] using hm
      obtain ⟨hc1, hc2⟩ := getMoreCount_bounds s hlpos hrlim hbs
      have hbound := hb (by rw [← hm']; simp only [reqCount]; omega)
      rw [← hm'] at hbound
      simp only [reqCount] at hbound
      omega
  rw [modCallback_apply s cid rep ha]
  by_cases hdie : dieNowB s rep = true
  · rw [if_pos hdie]
    refine ⟨?_, ?_, ?_, ?_, ?_, ?_⟩
    · rw [die_limit]
      exact hl0
    · rw [die_batchSize]
      exact hbs
    · rw [die_retrieved]
      simp only [applyReply]
      omega
    · rw [die_datastore, die_data, die_retrieved]
      simp only [applyReply]
      omega
    · rw [die_retrieved, die_limit]
      simp only [applyReply]
      exact hret
    · intro hko
      rw [die_killed] at hko
      exact Bool.noConfusion hko
  · rw [if_neg hdie]
    have hd : ¬ (rep.cursorId = 0 ∨ rep.data = [] ∨
        (s.limit ≠ 0 ∧ rep.cursorId ≠ 0 ∧
          s.limit ≤ s.retrieved + rep.numberReturned)) := by
      intro hprop
      apply hdie
      simp only [dieNowB, Bool.or_eq_true, Bool.and_eq_true, beq_iff_eq,
        Bool.not_eq_true', beq_eq_false_iff_ne, ne_eq, List.isEmpty_iff,
        decide_eq_true_eq]
      tauto
    push_neg at hd
    obtain ⟨hcid, _, hlt⟩ := hd
    have hlt' : s.retrieved + rep.numberReturned < s.limit := hlt hl0 hcid
    have hlimpos : 0 < s.limit := by omega
    refine ⟨hl0, hbs, by simp only [applyReply]; omega, ?_, ?_, ?_⟩
    · simp only [applyReply]
      omega
    · simp only [applyReply]
      exact hret
    · intro _
      exact ⟨hcid, hlimpos, by simp only [applyReply]; omega⟩

theorem drive_killed_eq (fix : PyVal → PyVal) (app : PyVal → PyVal → PyVal)
    (s : State) (rs : List RawResponse) (he : s.error = none)
    (hk : (drain fix app s).killed = true) :
    drive fix app s rs =
      (drain fix app s, .delivered (.docs (drain fix app s).datastore)) := by
  cases rs <;> simp [drive, loopOnce, he, hk]

theorem drive_stalled_eq (fix : PyVal → PyVal) (app : PyVal → PyVal → PyVal)
    (s : State) (rs : List RawResponse) (he : s.error = none)
    (hk : (drain fix app s).killed = false)
    (hr : request (drain fix app s) = none) :
    drive fix app s rs = (drain fix app s, .stalled) := by
  cases rs <;> simp [drive, loopOnce, he, hk, hr]

theorem drive_await_eq (fix : PyVal → PyVal) (app : PyVal → PyVal → PyVal)
    (s : State) (m : Msg) (he : s.error = none)
    (hk : (drain fix app s).killed = false)
    (hr : request (drain fix app s) = some m) :
    drive fix app s [] = (drain fix app s, .awaiting m) := by
  simp [drive, loopOnce, he, hk, hr]

theorem drive_cons_eq (fix : PyVal → PyVal) (app : PyVal → PyVal → PyVal)
    (s : State) (r : RawResponse) (rest : List RawResponse) (m : Msg)
    (he : s.error = none) (hk : (drain fix app s).killed = false)
    (hr : request (drain fix app s) = some m) :
    drive fix app s (r :: rest) =
      (match modCallback (drain fix app s) r with
       | (s2, .continued) => drive fix app s2 rest
       | (s2, .raised e) => (s2, .raisedAcross e)) := by
  simp [drive, loopOnce, he, hk, hr]

/-- Along any well-behaved exchange, the accumulated sink of the state the
drive loop ends in never exceeds the absolute value of the starting limit,
provided the start state satisfies the limit invariant. -/
theorem drive_limit_bound (fix : PyVal → PyVal) (app : PyVal → PyVal → PyVal) :
    ∀ (rs : List RawResponse) (s : State), LimitInv s → Honors fix app s rs →
      ((drive fix app s rs).1.datastore.length : Int) ≤
        (s.limit.natAbs : Int) := by
  intro rs
  induction rs with
  | nil =>
    intro s hI hH
    rcases hE : s.error with _ | e
    · by_cases hk : (drain fix app s).killed = true
      · rw [drive_killed_eq fix app s [] hE hk]
        exact inv_datastore_bound _ (inv_drain fix app s hI)
      · have hk' : (drain fix app s).killed = false := by simpa using hk
        rcases hr : request (drain fix app s) with _ | m
        · rw [drive_stalled_eq fix app s [] hE hk' hr]
          exact inv_datastore_bound _ (inv_drain fix app s hI)
        · rw [drive_await_eq fix app s m hE hk' hr]
          exact inv_datastore_bound _ (inv_drain fix app s hI)
    · rw [drive_error fix app s [] e hE]
      exact inv_datastore_bound s hI
  | cons r rest ih =>
    intro s hI hH
    rcases hE : s.error with _ | e
    · by_cases hk : (drain fix app s).killed = true
      · rw [drive_killed_eq fix app s (r :: rest) hE hk]
        exact inv_datastore_bound _ (inv_drain fix app s hI)
      · have hk' : (drain fix app s).killed = false := by simpa using hk
        rcases hr : request (drain fix app s) with _ | m
        · rw [drive_stalled_eq fix app s (r :: rest) hE hk' hr]
          exact inv_datastore_bound _ (inv_drain fix app s hI)
        · rw [drive_cons_eq fix app s r rest m hE hk' hr]
          have hIdrain := inv_drain fix app s hI
          have hloop : loopOnce fix app s = .send (drain fix app s) m := by
            simp [loopOnce, hE, hk', hr]
          have hH' := hH
          simp only [Honors] at hH'
          rw [hloop] at hH'
          rcases r with e | ⟨cid, p⟩
          · have hmc : modCallback (drain fix app s) (.exc e) =
                ({ drain fix app s with error := some e }, .continued) := rfl
            rw [hmc]
            show ((drive fix app
                { drain fix app s with error := some e } rest).1.datastore.length
                : Int) ≤ (s.limit.natAbs : Int)
            rw [drive_error fix app _ rest e rfl]
            exact inv_datastore_bound (drain fix app s) (inv_drain fix app s hI)
          · rcases p with _ | rep
            · have hmc : modCallback (drain fix app s) (.data cid .bad) =
                  ({ drain fix app s with
                      connectionId := cid
                      disconnected := true }, .raised .autoReconnect) := rfl
              rw [hmc]
              show ((({ drain fix app s with
                  connectionId := cid
                  disconnected := true } : State)).datastore.length : Int) ≤
                  (s.limit.natAbs : Int)
              exact inv_datastore_bound (drain fix app s) (inv_drain fix app s hI)
            · obtain ⟨⟨hn, hb⟩, hHrest⟩ := hH'
              by_cases hc : (drain fix app s).tailable = true ∨
                  rep.startingFrom = (drain fix app s).retrieved
              · have hInext := step_inv (drain fix app s) cid rep m hIdrain
                  hk' hr hc hn hb
                rw [modCallback_apply _ cid rep hc] at hInext hHrest ⊢
                by_cases hdie : dieNowB (drain fix app s) rep = true
                · rw [if_pos hdie] at hInext hHrest ⊢
                  show ((drive fix app
                      (die (applyReply (drain fix app s) cid rep))
                      rest).1.datastore.length : Int) ≤ (s.limit.natAbs : Int)
                  have h2 := ih (die (applyReply (drain fix app s) cid rep))
                    hInext hHrest
                  rw [die_limit] at h2
                  exact h2
                · rw [if_neg hdie] at hInext hHrest ⊢
                  show ((drive fix app
                      (applyReply (drain fix app s) cid rep)
                      rest).1.datastore.length : Int) ≤ (s.limit.natAbs : Int)
                  exact ih (applyReply (drain fix app s) cid rep)
                    hInext hHrest
              · push_neg at hc
                obtain ⟨hct, hcs⟩ := hc
                have hct' : (drain fix app s).tailable = false := by
                  simpa using hct
                rw [modCallback_assert _ cid rep hct' hcs]
                show ((({ drain fix app s with
                    connectionId := cid
                    id := some rep.cursorId } : State)).datastore.length
                    : Int) ≤ (s.limit.natAbs : Int)
                exact inv_datastore_bound (drain fix app s) (inv_drain fix app s hI)
    · rw [drive_error fix app s (r :: rest) e hE]
      exact inv_datastore_bound s hI

/-- Claim C8 counterexample: the cursor code never truncates an overlong
server batch, so a server that returns five documents although the get-more
requested two drives a limit-7 cursor to an accumulated sink of ten
documents, exceeding the absolute limit. -/
theorem limit_overrun_cex :
    (drive (fun d => d) (fun _ d => d) (mkFresh 7 0)
        overrunReplies).1.datastore.length = 10 ∧
    (mkFresh 7 0).limit = 7 ∧
    ¬ ((10 : Int) ≤ (((7 : Int).natAbs : Int))) :=
  ⟨rfl, rfl, by decide⟩

/-- Claim C8 (amended): provided every server reply reports its true batch
length and returns no more documents than the dispatched request asked for,
a cursor with nonzero limit never accumulates more than the absolute limit;
in particular, with limit 7 and batches of five then two, exactly seven
documents are accumulated, exactly one kill-cursor is dispatched for the
still-live id, and the seven documents are delivered. -/
theorem limit_bound_and_kill :
    (∀ (fix : PyVal → PyVal) (app : PyVal → PyVal → PyVal)
        (s : State) (rs : List RawResponse),
      LimitInv s → Honors fix app s rs →
      ((drive fix app s rs).1.datastore.length : Int) ≤
        (s.limit.natAbs : Int)) ∧
    (drive (fun d => d) (fun _ d => d) (mkFresh 7 0)
        goodReplies).1.datastore.length = 7 ∧
    (drive (fun d => d) (fun _ d => d) (mkFresh 7 0)
        goodReplies).1.killSends = 1 ∧
    (drive (fun d => d) (fun _ d => d) (mkFresh 7 0) goodReplies).2 =
      .delivered (.docs [.pint 1, .pint 2, .pint 3, .pint 4, .pint 5,
        .pint 6, .pint 7]) :=
  ⟨fun fix app s rs hI hH => drive_limit_bound fix app rs s hI hH,
   rfl, rfl, rfl⟩

theorem limit_bound_and_kill_witness :
    LimitInv (mkFresh 7 0) ∧
    Honors (fun d => d) (fun _ d => d) (mkFresh 7 0) goodReplies ∧
    ((drive (fun d => d) (fun _ d => d) (mkFresh 7 0)
        goodReplies).1.datastore.length : Int) ≤
      (((mkFresh 7 0).limit).natAbs : Int) := by
  have hInv : LimitInv (mkFresh 7 0) := by
    refine ⟨by decide, by decide, by decide, by decide, by decide, ?_⟩
    intro h
    show (mkFresh 7 0).retrieved = 0
    decide
  have hHon : Honors (fun d => d) (fun _ d => d) (mkFresh 7 0)
      goodReplies := by
    refine ⟨⟨by decide, fun h => by decide⟩,
      ⟨by decide, fun h => by decide⟩, trivial⟩
  exact ⟨hInv, hHon,
    limit_bound_and_kill.1 (fun d => d) (fun _ d => d) (mkFresh 7 0)
      goodReplies hInv hHon⟩
